import Mathlib

/-!
Shallow embedding of the paper-search demo service: the autocomplete
translator, the index-provisioning routine, the search request translator,
the hybrid post-processing step, and the result normalizer.  All definitions
are translated from the Python sources in `api/search.py`, `api/autocomplete.py`,
`backend/main.py` and `scripts/setup_indexes.py`.
-/

/-! ## Autocomplete escaping (api/autocomplete.py line 37, backend/main.py line 313) -/

/-- One chained single-character `str.replace` as used by the autocomplete
escaping line: every occurrence of `target` is replaced by `repl`. -/
def replaceChar (target : Char) (repl : List Char) : List Char → List Char
  | [] => []
  | c :: cs => (if c = target then repl else [c]) ++ replaceChar target repl cs

/-- The escaping from the autocomplete endpoints, as in the source:
first double every backslash, then backslash-prefix every percent,
then backslash-prefix every underscore. -/
def escapeLike (s : List Char) : List Char :=
  replaceChar '_' ['\\', '_'] (replaceChar '%' ['\\', '%'] (replaceChar '\\' ['\\', '\\'] s))

/-- Inverse reading of an escaped pattern fragment: a backslash makes the
next character literal. -/
def unescapeLike : List Char → List Char
  | [] => []
  | [c] => [c]
  | c :: d :: cs =>
    if c = '\\' then d :: unescapeLike cs
    else c :: unescapeLike (d :: cs)

/-- Scans an escaped fragment: true when every backslash, percent and
underscore occurs only as the payload of a backslash escape, so none of the
three can act as a pattern wildcard. -/
def allEscaped : List Char → Bool
  | [] => true
  | [c] => !(c = '\\' || c = '%' || c = '_')
  | c :: d :: cs =>
    if c = '\\' then allEscaped cs
    else !(c = '%' || c = '_') && allEscaped (d :: cs)

/-- The LIKE filter expression built by both autocomplete endpoints:
`title LIKE "%<escaped substring>%"`. -/
def autocompleteFilter (substring : List Char) : List Char :=
  ("title LIKE \x22%").toList ++ escapeLike substring ++ ("%\x22").toList

/-! ## Autocomplete handler (api/autocomplete.py lines 54-61; backend/main.py
lines 307-320).  The vector store is passed as an oracle from filter
expression and limit to title list; `queriesIssued` counts the `client.query`
calls the handler makes. -/

structure AcResponse where
  titles : List String
  queriesIssued : Nat
deriving DecidableEq, Repr

/-- The ASCII whitespace characters Python strip removes. -/
def isSpaceChar (c : Char) : Bool :=
  c = ' ' || c = '\t' || c = '\n' || c = '\r' || c = '\x0b' || c = '\x0c'

def dropLeadingSpace : List Char → List Char
  | [] => []
  | c :: cs => if isSpaceChar c then dropLeadingSpace cs else c :: cs

/-- Python `str.strip()`: drop whitespace from both ends. -/
def stripChars (s : List Char) : List Char :=
  (dropLeadingSpace (dropLeadingSpace s).reverse).reverse

/-- The handler body: strip the query, return an empty list when the stripped
substring is falsy or shorter than the minimum length (2 in the serverless
entry point, 4 in the FastAPI entry point, so the threshold is a parameter),
otherwise escape it and issue exactly one store query. -/
def autocompleteHandler (minLen : Nat) (store : List Char → Int → List String)
    (query : List Char) (lim : Int) : AcResponse :=
  let substring := stripChars query
  if substring.isEmpty ∨ substring.length < minLen then
    { titles := [], queriesIssued := 0 }
  else
    { titles := store (autocompleteFilter substring) lim, queriesIssued := 1 }

/-! ## Index provisioning (scripts/setup_indexes.py, add_ngram_index) -/

/-- Substring test helpers modelling the Python `in` operator on strings. -/
def startsWithSeg : List Char → List Char → Bool
  | [], _ => true
  | _ :: _, [] => false
  | a :: as, b :: bs => a = b && startsWithSeg as bs

def hasSubSeg : List Char → List Char → Bool
  | n, [] => n.isEmpty
  | n, c :: t => startsWithSeg n (c :: t) || hasSubSeg n t

/-- Python `str(e).lower()` on the ASCII error messages involved. -/
def lowerStr (s : String) : List Char :=
  s.toList.map Char.toLower

/-- `"already" in m or "exists" in m or "duplicate" in m` on the lowered
error message, as in setup_indexes.py lines 86-88. -/
def raceMessage (e : String) : Bool :=
  let m := lowerStr e
  hasSubSeg ("already").toList m || hasSubSeg ("exists").toList m ||
    hasSubSeg ("duplicate").toList m

/-- The state the routine inspects for one listed index: its name and the
outcome of `describe_index` (`none` models the call raising, which the
source swallows with `except Exception: pass`). -/
structure IndexInfo where
  name : String
  describeResult : Option (List (String × String))
deriving DecidableEq, Repr

/-- Python `dict.get` on the describe result. -/
def dictGet (k : String) (d : List (String × String)) : Option String :=
  (d.find? (fun p => p.1 == k)).map (fun p => p.2)

/-- `details.get("index_type") == "NGRAM"`, with a raising describe call
treated as no match. -/
def isNgramByDescribe (i : IndexInfo) : Bool :=
  match i.describeResult with
  | none => false
  | some d => dictGet "index_type" d == some "NGRAM"

def NGRAM_INDEX_NAME : String := "title_ngram"

inductive NgramOutcome where
  | skippedByName
  | skippedByType (idxName : String)
  | added
  | skippedRace
deriving DecidableEq, Repr

/-- add_ngram_index: skip when an index named `title_ngram` is listed; skip
when any listed index describes as type NGRAM; otherwise attempt creation
(`createResult` is the outcome of the `create_index` call), treating an
already-exists style error as success and re-raising anything else. -/
def add_ngram_index (existing : List IndexInfo) (createResult : Except String Unit) :
    Except String NgramOutcome :=
  if (existing.map IndexInfo.name).contains NGRAM_INDEX_NAME then
    .ok .skippedByName
  else
    match existing.find? isNgramByDescribe with
    | some i => .ok (.skippedByType i.name)
    | none =>
      match createResult with
      | .ok _ => .ok .added
      | .error e => if raceMessage e then .ok .skippedRace else .error e

/-! ## Search request translator (api/search.py, search_papers).  Scores and
weights are modelled as rationals.  An embedding vector is represented
symbolically by the query text it was computed from; the translator also
reports how many times it called the embedding provider. -/

structure TimeDecayParams where
  origin : ℚ := 2025
  offset : ℚ := 5
  decay : ℚ := 4 / 5
  scale : ℚ := 8
deriving DecidableEq, Repr

structure BoostParams where
  t0 : Int := 10
  t1 : Int := 100
  t2 : Int := 1000
  w0 : ℚ := 11 / 10
  w1 : ℚ := 12 / 10
  w2 : ℚ := 15 / 10
deriving DecidableEq, Repr

/-- The params dict of a RERANK Function: either a decay reranker or a
boost reranker. -/
inductive RankParams where
  | decay (function : String) (origin offset decayRate scale : ℚ)
  | boost (filter : String) (weight : ℚ)
deriving DecidableEq, Repr

structure RankFunction where
  name : String
  input_field_names : List String
  function_type : String
  params : RankParams
deriving DecidableEq, Repr

/-- Spec-side description of a citation-count filter: a half-open range.
`render` is the string the source emits for it; `holds` is its meaning. -/
inductive CitFilter where
  | between (t0 t1 : Int)
  | above (t : Int)
deriving DecidableEq, Repr

def CitFilter.render : CitFilter → String
  | .between t0 t1 =>
    "citationcount > " ++ toString t0 ++ " and citationcount <= " ++ toString t1
  | .above t => "citationcount > " ++ toString t

def CitFilter.holds : CitFilter → Int → Prop
  | .between t0 t1, c => t0 < c ∧ c ≤ t1
  | .above t, c => t < c

/-- The one exponential time-decay term (search.py lines 93-105). -/
def timeDecayFunction (p : TimeDecayParams) : RankFunction :=
  { name := "time_decay_exp", input_field_names := ["year"],
    function_type := "RERANK",
    params := .decay "exp" p.origin p.offset p.decay p.scale }

/-- The three tiered citation-boost terms (search.py lines 112-143). -/
def boostFunctions (p : BoostParams) : List RankFunction :=
  [ { name := "boost_10", input_field_names := [], function_type := "RERANK",
      params := .boost ("citationcount > " ++ toString p.t0 ++
        " and citationcount <= " ++ toString p.t1) p.w0 },
    { name := "boost_100", input_field_names := [], function_type := "RERANK",
      params := .boost ("citationcount > " ++ toString p.t1 ++
        " and citationcount <= " ++ toString p.t2) p.w1 },
    { name := "boost_1000", input_field_names := [], function_type := "RERANK",
      params := .boost ("citationcount > " ++ toString p.t2) p.w2 } ]

/-- The two fixed boost-ranker terms (search.py lines 146-166). -/
def boostRankerFunctions : List RankFunction :=
  [ { name := "boost_ranker_recency", input_field_names := [],
      function_type := "RERANK", params := .boost "year >= 2022" (13 / 10) },
    { name := "boost_ranker_citations", input_field_names := [],
      function_type := "RERANK", params := .boost "citationcount >= 500" (12 / 10) } ]

/-- A search request after JSON extraction, with the defaults `dict.get`
supplies (search.py lines 62-74). -/
structure SearchOptions where
  query : String := ""
  limit : Int := 10
  use_time_decay : Bool := false
  use_boost : Bool := false
  use_boost_ranker : Bool := false
  highlight_mode : String := "none"
  search_mode : Option String := none
  filter : String := ""
  time_decay_params : TimeDecayParams := {}
  boost_params : BoostParams := {}
deriving DecidableEq, Repr

/-- Mode selection (search.py lines 74-79): an explicit search_mode wins;
otherwise infer keyword from lexical highlighting, else semantic. -/
def effectiveMode (o : SearchOptions) : String :=
  match o.search_mode with
  | some m => m
  | none => if o.highlight_mode = "lexical" then "keyword" else "semantic"

/-- The ranker-function list (search.py lines 85-166), in source order. -/
def buildFunctions (o : SearchOptions) : List RankFunction :=
  (if o.use_time_decay then [timeDecayFunction o.time_decay_params] else []) ++
    (if o.use_boost then boostFunctions o.boost_params else []) ++
      (if o.use_boost_ranker then boostRankerFunctions else [])

structure FunctionScore where
  functions : List RankFunction
deriving DecidableEq, Repr

/-- `ranker = None; if functions: ranker = FunctionScore(...)` (lines 168-170). -/
def rankerOpt (o : SearchOptions) : Option FunctionScore :=
  if (buildFunctions o).isEmpty then none else some { functions := buildFunctions o }

/-- Data passed to a retrieval call: raw query text for BM25, or the dense
embedding obtained from the provider for the given text. -/
inductive QueryData where
  | rawText (q : String)
  | denseEmbedding (q : String)
deriving DecidableEq, Repr

inductive HighlighterSpec where
  | lexical (pre_tags post_tags : List String)
      (fragment_offset fragment_size : Int) (highlight_search_text : Bool)
deriving DecidableEq, Repr

/-- The fixed lexical highlighter attached in keyword mode (lines 230-236). -/
def lexicalHighlighter : HighlighterSpec :=
  .lexical ["<mark class=\x27lexical\x27>"] ["</mark>"] 100 1000 true

/-- The ranker slot of a hybrid_search call: the rank-fusion reranker or a
FunctionScore (the client API accepts only the former). -/
inductive HybridRanker where
  | rrf
  | fscore (f : FunctionScore)
deriving DecidableEq, Repr

structure AnnSearchRequest where
  data : QueryData
  anns_field : String
  param : List (String × String)
  limit : Int
deriving DecidableEq, Repr

structure HybridKwargs where
  reqs : List AnnSearchRequest
  ranker : HybridRanker
  limit : Int
  output_fields : List String
  filter : Option String
deriving DecidableEq, Repr

structure SearchKwargs where
  data : QueryData
  output_fields : List String
  anns_field : String
  search_params : Option (List (String × String))
  limit : Int
  filter : Option String
  highlighter : Option HighlighterSpec
  ranker : Option FunctionScore
deriving DecidableEq, Repr

inductive RetrievalCall where
  | search (kwargs : SearchKwargs)
  | hybridSearch (kwargs : HybridKwargs)
deriving DecidableEq, Repr

def outputFields : List String := ["corpusid", "title", "year", "citationcount", "url"]

/-- The single retrieval invocation the translator issues (search.py lines
172-259), paired with the number of embedding-provider calls made on that
path. -/
def buildRetrievalCall (o : SearchOptions) : RetrievalCall × Nat :=
  if effectiveMode o = "hybrid" then
    (.hybridSearch
      { reqs :=
          [ { data := .denseEmbedding o.query, anns_field := "vector",
              param := [], limit := o.limit },
            { data := .rawText o.query, anns_field := "title_sparse",
              param := [("metric_type", "BM25")], limit := o.limit } ],
        ranker := .rrf,
        limit := o.limit,
        output_fields := outputFields,
        filter := if o.filter ≠ "" then some o.filter else none }, 1)
  else if effectiveMode o = "keyword" then
    (.search
      { data := .rawText o.query,
        output_fields := outputFields,
        anns_field := "title_sparse",
        search_params := some [("metric_type", "BM25")],
        limit := o.limit,
        filter := if o.filter ≠ "" then some o.filter else none,
        highlighter :=
          if o.highlight_mode = "lexical" then some lexicalHighlighter else none,
        ranker := rankerOpt o }, 0)
  else
    (.search
      { data := .denseEmbedding o.query,
        output_fields := outputFields,
        anns_field := "vector",
        search_params := none,
        limit := o.limit,
        filter := if o.filter ≠ "" then some o.filter else none,
        highlighter := none,
        ranker := rankerOpt o }, 1)

/-! ## Raw hits and the result normalizer (search.py lines 203-214 and
262-281; the same normalization appears in backend/main.py lines 260-281). -/

/-- The scalar fields the normalizer reads from a hit record. -/
structure EntityFields where
  corpusid : Option Int := none
  title : Option String := none
  year : Option Int := none
  citationcount : Option Int := none
  url : Option String := none
deriving DecidableEq, Repr

structure FragmentInfo where
  fragments : Option (List String) := none
deriving DecidableEq, Repr

structure HighlightInfo where
  title : Option FragmentInfo := none
deriving DecidableEq, Repr

/-- A raw hit as the normalizer sees it: optional top-level id, score and
distance, an optional nested entity record, the scalar fields of the hit
record itself (read when no entity key is present), and an optional
highlight substructure. -/
structure RawHit where
  id : Option String := none
  score : Option ℚ := none
  distance : Option ℚ := none
  entity : Option EntityFields := none
  own : EntityFields := {}
  highlight : Option HighlightInfo := none
deriving DecidableEq, Repr

/-- `entity = hit.get(\x27entity\x27, hit)`: the nested record when present,
else the hit itself. -/
def entityOf (h : RawHit) : EntityFields :=
  h.entity.getD h.own

/-- `hit.get(\x27score\x27, hit.get(\x27distance\x27, 0))`. -/
def hitScore (h : RawHit) : ℚ :=
  h.score.getD (h.distance.getD 0)

/-- The nested highlight extraction (search.py lines 266-270). -/
def highlightedTitleOf (h : RawHit) : Option String :=
  match h.highlight with
  | none => none
  | some hl =>
    match hl.title with
    | none => none
    | some fi =>
      match fi.fragments.getD [] with
      | [] => none
      | f :: _ => some f

/-- The fragment list for the title field, through the same defaults. -/
def titleFragments (h : RawHit) : List String :=
  match h.highlight with
  | none => []
  | some hl =>
    match hl.title with
    | none => []
    | some fi => fi.fragments.getD []

structure PaperResult where
  id : String
  score : ℚ
  corpusid : Int
  title : String
  highlighted_title : Option String
  year : Int
  citationcount : Int
  url : String
deriving DecidableEq, Repr

/-- One formatted paper record (search.py lines 272-281). -/
def normalizeHit (h : RawHit) : PaperResult :=
  let entity := entityOf h
  { id := h.id.getD "",
    score := hitScore h,
    corpusid := entity.corpusid.getD 0,
    title := entity.title.getD "",
    highlighted_title := highlightedTitleOf h,
    year := entity.year.getD 0,
    citationcount := entity.citationcount.getD 0,
    url := entity.url.getD "" }

/-! ## Hybrid post-processing (search.py lines 203-214) -/

/-- The multiplier applied to one hit: 1.3 when the year is at least 2022,
times 1.2 when the citation count is at least 500. -/
def boostMultiplier (h : RawHit) : ℚ :=
  (if (entityOf h).year.getD 0 ≥ 2022 then (13 : ℚ) / 10 else 1) *
    (if (entityOf h).citationcount.getD 0 ≥ 500 then (12 : ℚ) / 10 else 1)

/-- `hit[\x27score\x27] = hit.get(\x27score\x27, hit.get(\x27distance\x27, 0)) * multiplier`. -/
def applyBoostRanker (h : RawHit) : RawHit :=
  { h with score := some (hitScore h * boostMultiplier h) }

/-- The sort key of the final re-sort: `h.get(\x27score\x27, 0)`. -/
def sortKey (h : RawHit) : ℚ :=
  h.score.getD 0

/-- Descending comparison on the sort key. -/
def hitGE (a b : RawHit) : Prop :=
  sortKey b ≤ sortKey a

instance : DecidableRel hitGE :=
  fun a b => inferInstanceAs (Decidable (sortKey b ≤ sortKey a))

instance : IsTotal RawHit hitGE :=
  ⟨fun a b => le_total (sortKey b) (sortKey a)⟩

instance : IsTrans RawHit hitGE :=
  ⟨fun _ _ _ hab hbc => le_trans hbc hab⟩

/-- The hybrid branch after the hybrid_search call: when the boost-ranker
flag is on and the hit list is non-empty, multiply every score and re-sort
descending by score; otherwise leave the hits untouched. -/
def hybridPostProcess (use_boost_ranker : Bool) (hits : List RawHit) : List RawHit :=
  if use_boost_ranker && !hits.isEmpty then
    (hits.map applyBoostRanker).insertionSort hitGE
  else hits

/-! ## Helper lemmas about the escaping -/

/-- What the three chained replaces do to one character. -/
def esc1 (c : Char) : List Char :=
  if c = '\\' ∨ c = '%' ∨ c = '_' then ['\\', c] else [c]

theorem replaceChar_append (t : Char) (r a b : List Char) :
    replaceChar t r (a ++ b) = replaceChar t r a ++ replaceChar t r b := by
  induction a with
  | nil => rfl
  | cons c cs ih => simp [replaceChar, ih]

theorem escapeLike_cons (c : Char) (s : List Char) :
    escapeLike (c :: s) = esc1 c ++ escapeLike s := by
  unfold escapeLike esc1
  by_cases h1 : c = '\\'
  · subst h1
    simp [replaceChar, replaceChar_append]
  · by_cases h2 : c = '%'
    · subst h2
      simp [replaceChar, replaceChar_append]
    · by_cases h3 : c = '_'
      · subst h3
        simp [replaceChar, replaceChar_append]
      · simp [replaceChar, replaceChar_append, h1, h2, h3]

theorem unescape_escape (s : List Char) : unescapeLike (escapeLike s) = s := by
  induction s with
  | nil => rfl
  | cons c s ih =>
    rw [escapeLike_cons]
    by_cases h : c = '\\' ∨ c = '%' ∨ c = '_'
    · rw [esc1, if_pos h]
      simpa [unescapeLike] using ih
    · rw [esc1, if_neg h]
      have hc : c ≠ '\\' := fun hh => h (Or.inl hh)
      cases hE : escapeLike s with
      | nil =>
        rw [hE] at ih
        simp [unescapeLike, ← ih]
      | cons d cs =>
        rw [hE] at ih
        simp [unescapeLike, hc, ih]

theorem allEscaped_escape (s : List Char) : allEscaped (escapeLike s) = true := by
  induction s with
  | nil => rfl
  | cons c s ih =>
    rw [escapeLike_cons]
    by_cases h : c = '\\' ∨ c = '%' ∨ c = '_'
    · rw [esc1, if_pos h]
      simpa [allEscaped] using ih
    · rw [esc1, if_neg h]
      push_neg at h
      obtain ⟨h1, h2, h3⟩ := h
      cases hE : escapeLike s with
      | nil => simp [allEscaped, h1, h2, h3]
      | cons d cs =>
        rw [hE] at ih
        simp [allEscaped, h1, h2, h3, ih]

theorem escapeLike_id (s : List Char)
    (h : ∀ c ∈ s, c ≠ '\\' ∧ c ≠ '%' ∧ c ≠ '_') : escapeLike s = s := by
  induction s with
  | nil => rfl
  | cons c s ih =>
    rw [escapeLike_cons]
    obtain ⟨h1, h2, h3⟩ := h c (List.mem_cons_self c s)
    rw [esc1, if_neg (by tauto)]
    simp [ih fun d hd => h d (List.mem_cons_of_mem c hd)]

/-! ## Helper lemmas about the translator and the normalizer -/

theorem highlightedTitleOf_eq_head (h : RawHit) :
    highlightedTitleOf h = (titleFragments h).head? := by
  obtain ⟨i, s, d, e, w, hi⟩ := h
  cases hi with
  | none => rfl
  | some hl =>
    obtain ⟨t⟩ := hl
    cases t with
    | none => rfl
    | some fi =>
      obtain ⟨fr⟩ := fi
      cases fr with
      | none => rfl
      | some l =>
        cases l with
        | nil => rfl
        | cons f fs => rfl

/-- Every plain (non-hybrid) retrieval call carries exactly the optional
composite ranker of the request. -/
theorem searchCall_ranker (o : SearchOptions) (k : SearchKwargs)
    (hk : (buildRetrievalCall o).1 = .search k) : k.ranker = rankerOpt o := by
  unfold buildRetrievalCall at hk
  split_ifs at hk <;> simp_all <;> rw [← hk]

/-! ## The claims -/

/-- C1: an explicit search_mode is used unchanged; when it is absent the
effective mode is keyword for lexical highlighting and semantic otherwise. -/
theorem C1_mode_selection (o : SearchOptions) :
    (∀ m, o.search_mode = some m → effectiveMode o = m) ∧
    (o.search_mode = none → o.highlight_mode = "lexical" → effectiveMode o = "keyword") ∧
    (o.search_mode = none → o.highlight_mode ≠ "lexical" → effectiveMode o = "semantic") := by
  refine ⟨fun m hm => ?_, fun hn hl => ?_, fun hn hl => ?_⟩ <;>
    simp [effectiveMode, *]

/-- C1 witness: concrete instances of all three branches. -/
theorem C1_mode_selection_witness :
    effectiveMode { search_mode := some "hybrid", highlight_mode := "lexical" } = "hybrid" ∧
    effectiveMode { highlight_mode := "lexical" } = "keyword" ∧
    effectiveMode { highlight_mode := "none" } = "semantic" :=
  ⟨(C1_mode_selection _).1 "hybrid" rfl,
   (C1_mode_selection _).2.1 rfl rfl,
   (C1_mode_selection _).2.2 rfl (by decide)⟩

/-- C2: with only use_time_decay the function list is exactly the one decay
term; with only use_boost it is exactly the three tiered boost terms whose
filters denote the ranges (t0,t1], (t1,t2], (t2,inf) with independent
weights; with no flag the list is empty and no ranker is attached to the
search call. -/
theorem C2_ranker_composition (o : SearchOptions) :
    (o.use_time_decay = true → o.use_boost = false → o.use_boost_ranker = false →
      buildFunctions o = [timeDecayFunction o.time_decay_params]) ∧
    (o.use_time_decay = false → o.use_boost = true → o.use_boost_ranker = false →
      buildFunctions o =
        [ { name := "boost_10", input_field_names := [], function_type := "RERANK",
            params := .boost
              ((CitFilter.between o.boost_params.t0 o.boost_params.t1).render)
              o.boost_params.w0 },
          { name := "boost_100", input_field_names := [], function_type := "RERANK",
            params := .boost
              ((CitFilter.between o.boost_params.t1 o.boost_params.t2).render)
              o.boost_params.w1 },
          { name := "boost_1000", input_field_names := [], function_type := "RERANK",
            params := .boost
              ((CitFilter.above o.boost_params.t2).render)
              o.boost_params.w2 } ] ∧
      (∀ c : Int,
        (CitFilter.between o.boost_params.t0 o.boost_params.t1).holds c ↔
          o.boost_params.t0 < c ∧ c ≤ o.boost_params.t1) ∧
      (∀ c : Int,
        (CitFilter.between o.boost_params.t1 o.boost_params.t2).holds c ↔
          o.boost_params.t1 < c ∧ c ≤ o.boost_params.t2) ∧
      (∀ c : Int,
        (CitFilter.above o.boost_params.t2).holds c ↔ o.boost_params.t2 < c)) ∧
    (o.use_time_decay = false → o.use_boost = false → o.use_boost_ranker = false →
      buildFunctions o = [] ∧ rankerOpt o = none ∧
      ∀ k, (buildRetrievalCall o).1 = .search k → k.ranker = none) := by
  refine ⟨fun h1 h2 h3 => ?_, fun h1 h2 h3 => ?_, fun h1 h2 h3 => ?_⟩
  · simp [buildFunctions, h1, h2, h3]
  · refine ⟨?_, fun c => Iff.rfl, fun c => Iff.rfl, fun c => Iff.rfl⟩
    simp [buildFunctions, h1, h2, h3, boostFunctions, CitFilter.render]
  · have hf : buildFunctions o = [] := by simp [buildFunctions, h1, h2, h3]
    have hr : rankerOpt o = none := by simp [rankerOpt, hf]
    exact ⟨hf, hr, fun k hk => (searchCall_ranker o k hk).trans hr⟩

/-- C2 witness: the three branches at concrete option records. -/
theorem C2_ranker_composition_witness :
    buildFunctions { use_time_decay := true } = [timeDecayFunction {}] ∧
    (buildFunctions { use_boost := true }).length = 3 ∧
    buildFunctions {} = [] ∧ rankerOpt {} = none :=
  ⟨(C2_ranker_composition _).1 rfl rfl rfl,
   by rw [((C2_ranker_composition { use_boost := true }).2.1 rfl rfl rfl).1]; rfl,
   ((C2_ranker_composition {}).2.2 rfl rfl rfl).1,
   ((C2_ranker_composition {}).2.2 rfl rfl rfl).2.1⟩

/-- C4: a query whose stripped length is below the threshold yields an empty
title list and issues no store query, as an ordinary response rather than an
error. -/
theorem C4_autocomplete_short_query (minLen : Nat) (store : List Char → Int → List String)
    (query : List Char) (lim : Int)
    (h : (stripChars query).length < minLen) :
    autocompleteHandler minLen store query lim = { titles := [], queriesIssued := 0 } := by
  unfold autocompleteHandler
  exact if_pos (Or.inr h)

/-- C4 witness: a one-character query below the serverless threshold of 2. -/
theorem C4_autocomplete_short_query_witness :
    autocompleteHandler 2 (fun _ _ => ["never"]) ("  a ").toList 5 =
      { titles := [], queriesIssued := 0 } :=
  C4_autocomplete_short_query 2 (fun _ _ => ["never"]) ("  a ").toList 5 (by decide)

/-- C5: the escaping backslash-prefixes every backslash, percent and
underscore, so none of the three survives as a bare pattern wildcard, and
unescaping the escaped substring yields the original substring. -/
theorem C5_escape_roundtrip (s : List Char) :
    allEscaped (escapeLike s) = true ∧ unescapeLike (escapeLike s) = s :=
  ⟨allEscaped_escape s, unescape_escape s⟩

/-- C6: normalization defaults — missing citationcount yields 0, missing url
yields the empty string, score falls back to distance and then to 0, and
highlighted_title is exactly the head of the title fragment list. -/
theorem C6_normalizer_defaults (h : RawHit) :
    ((entityOf h).citationcount = none → (normalizeHit h).citationcount = 0) ∧
    ((entityOf h).url = none → (normalizeHit h).url = "") ∧
    (∀ q, h.score = some q → (normalizeHit h).score = q) ∧
    (h.score = none → (normalizeHit h).score = h.distance.getD 0) ∧
    (h.score = none → h.distance = none → (normalizeHit h).score = 0) ∧
    (normalizeHit h).highlighted_title = (titleFragments h).head? := by
  refine ⟨fun hc => ?_, fun hu => ?_, fun q hq => ?_, fun hs => ?_, fun hs hd => ?_, ?_⟩
  · simp [normalizeHit, hc]
  · simp [normalizeHit, hu]
  · simp [normalizeHit, hitScore, hq]
  · simp [normalizeHit, hitScore, hs]
  · simp [normalizeHit, hitScore, hs, hd]
  · exact highlightedTitleOf_eq_head h

/-- C6 witness: the defaults at an all-absent hit and the distance fallback
at a hit carrying only a distance. -/
theorem C6_normalizer_defaults_witness :
    (normalizeHit {}).citationcount = 0 ∧
    (normalizeHit {}).url = "" ∧
    (normalizeHit { distance := some 2 }).score = 2 ∧
    (normalizeHit {}).score = 0 ∧
    (normalizeHit {}).highlighted_title = ([] : List String).head? :=
  ⟨(C6_normalizer_defaults {}).1 rfl,
   (C6_normalizer_defaults {}).2.1 rfl,
   (C6_normalizer_defaults { distance := some 2 }).2.2.2.1 rfl,
   (C6_normalizer_defaults {}).2.2.2.2.1 rfl rfl,
   (C6_normalizer_defaults {}).2.2.2.2.2⟩

/-- C10: the escaping touches only the three metacharacters; every other
string is passed through unchanged, and a double quote in the substring
reaches the generated filter expression verbatim inside the quoted
pattern. -/
theorem C10_escape_only_metachars :
    (∀ s : List Char, (∀ c ∈ s, c ≠ '\\' ∧ c ≠ '%' ∧ c ≠ '_') → escapeLike s = s) ∧
    autocompleteFilter ("ab\x22cd").toList = ("title LIKE \x22%ab\x22cd%\x22").toList ∧
    '"' ∈ autocompleteFilter ("ab\x22cd").toList :=
  ⟨escapeLike_id, by decide, by decide⟩

/-- C10 witness: the pass-through clause applied at a concrete substring
containing a double quote. -/
theorem C10_escape_only_metachars_witness :
    escapeLike ("ab\x22cd").toList = ("ab\x22cd").toList :=
  C10_escape_only_metachars.1 ("ab\x22cd").toList (by decide)

/-- C3: for a hybrid search with the boost-ranker flag on and a non-empty
hit list, the result is a permutation of the hits with every score
multiplied by 1.3 when the year is at least 2022 and by 1.2 when the
citation count is at least 500, re-sorted so scores are descending. -/
theorem C3_hybrid_boost_postprocess (hits : List RawHit) (hne : hits ≠ []) :
    List.Perm (hybridPostProcess true hits) (hits.map applyBoostRanker) ∧
    List.Sorted hitGE (hybridPostProcess true hits) ∧
    ∀ h ∈ hits, (applyBoostRanker h).score =
      some (hitScore h *
        ((if (entityOf h).year.getD 0 ≥ 2022 then (13 : ℚ) / 10 else 1) *
          (if (entityOf h).citationcount.getD 0 ≥ 500 then (12 : ℚ) / 10 else 1))) := by
  have hE : hits.isEmpty = false := by
    cases hits with
    | nil => exact absurd rfl hne
    | cons a l => rfl
  have hpp : hybridPostProcess true hits = (hits.map applyBoostRanker).insertionSort hitGE := by
    simp [hybridPostProcess, hE]
  refine ⟨?_, ?_, fun h hh => ?_⟩
  · rw [hpp]
    exact List.perm_insertionSort hitGE _
  · rw [hpp]
    exact List.sorted_insertionSort hitGE _
  · simp [applyBoostRanker, boostMultiplier]

/-- C3 witness: the post-processing property at a concrete singleton hit
list. -/
theorem C3_hybrid_boost_postprocess_witness :
    List.Perm
      (hybridPostProcess true [{ score := some 1, own := { year := some 2023 } }])
      ([{ score := some 1, own := { year := some 2023 } }].map applyBoostRanker) ∧
    List.Sorted hitGE (hybridPostProcess true [{ score := some 1, own := { year := some 2023 } }]) ∧
    ∀ h ∈ [({ score := some 1, own := { year := some 2023 } } : RawHit)],
      (applyBoostRanker h).score =
        some (hitScore h *
          ((if (entityOf h).year.getD 0 ≥ 2022 then (13 : ℚ) / 10 else 1) *
            (if (entityOf h).citationcount.getD 0 ≥ 500 then (12 : ℚ) / 10 else 1))) :=
  C3_hybrid_boost_postprocess _ (by simp)

/-- C7: a keyword-mode request issues the one lexical BM25 search against
the sparse title field with the raw query text, makes no embedding-provider
call, and attaches the fixed lexical highlighter exactly when highlight_mode
is lexical. -/
theorem C7_keyword_translation (o : SearchOptions) (hm : effectiveMode o = "keyword") :
    (buildRetrievalCall o).1 = .search
      { data := .rawText o.query,
        output_fields := outputFields,
        anns_field := "title_sparse",
        search_params := some [("metric_type", "BM25")],
        limit := o.limit,
        filter := if o.filter ≠ "" then some o.filter else none,
        highlighter := if o.highlight_mode = "lexical" then some lexicalHighlighter else none,
        ranker := rankerOpt o } ∧
    (buildRetrievalCall o).2 = 0 := by
  have hh : ¬ effectiveMode o = "hybrid" := by
    rw [hm]
    decide
  constructor <;> simp [buildRetrievalCall, hm, hh]

/-- C7 witness: the keyword translation at the default request with lexical
highlighting. -/
theorem C7_keyword_translation_witness :
    (buildRetrievalCall { highlight_mode := "lexical" }).1 = .search
      { data := .rawText "",
        output_fields := outputFields,
        anns_field := "title_sparse",
        search_params := some [("metric_type", "BM25")],
        limit := 10,
        filter := none,
        highlighter := some lexicalHighlighter,
        ranker := none } ∧
    (buildRetrievalCall { highlight_mode := "lexical" }).2 = 0 := by
  have h := C7_keyword_translation { highlight_mode := "lexical" } rfl
  simpa using h

/-- Clearing the two composite-ranker flags of a request. -/
def clearRankerFlags (o : SearchOptions) : SearchOptions :=
  { o with use_time_decay := false, use_boost := false }

/-- C8: in hybrid mode the composite FunctionScore ranker is never attached
(the call always carries the rank-fusion reranker), so two hybrid requests
differing only in use_time_decay and use_boost make the same retrieval call
and post-process hits identically; the post-processing step depends only on
the boost-ranker flag, never on the decay term. -/
theorem C8_hybrid_flag_invariance (o1 o2 : SearchOptions)
    (hm : effectiveMode o1 = "hybrid")
    (h : clearRankerFlags o1 = clearRankerFlags o2) :
    buildRetrievalCall o1 = buildRetrievalCall o2 ∧
    (∀ k, (buildRetrievalCall o1).1 = .hybridSearch k → k.ranker = .rrf) ∧
    ∀ hits, hybridPostProcess o1.use_boost_ranker hits =
      hybridPostProcess o2.use_boost_ranker hits := by
  obtain ⟨q1, l1, td1, b1, br1, hm1, sm1, f1, tp1, bp1⟩ := o1
  obtain ⟨q2, l2, td2, b2, br2, hm2, sm2, f2, tp2, bp2⟩ := o2
  simp only [clearRankerFlags] at h
  injection h with hq hl h3 h4 hbr hhm hsm hf htp hbp
  subst hq hl hbr hhm hsm hf htp hbp
  have hm2 : effectiveMode ⟨q1, l1, td2, b2, br1, hm1, sm1, f1, tp1, bp1⟩ = "hybrid" := by
    rw [← hm]
    simp [effectiveMode]
  refine ⟨?_, fun k hk => ?_, fun hits => rfl⟩
  · unfold buildRetrievalCall
    rw [if_pos hm, if_pos hm2]
  · unfold buildRetrievalCall at hk
    rw [if_pos hm] at hk
    simp at hk
    rw [← hk]

/-- C8 witness: two concrete hybrid requests differing exactly in the two
composite-ranker flags. -/
theorem C8_hybrid_flag_invariance_witness :
    buildRetrievalCall
        { search_mode := some "hybrid", use_time_decay := true, use_boost := true } =
      buildRetrievalCall { search_mode := some "hybrid" } ∧
    (∀ k, (buildRetrievalCall
        { search_mode := some "hybrid", use_time_decay := true, use_boost := true }).1 =
          .hybridSearch k → k.ranker = .rrf) ∧
    ∀ hits, hybridPostProcess
        ({ search_mode := some "hybrid", use_time_decay := true,
           use_boost := true } : SearchOptions).use_boost_ranker hits =
      hybridPostProcess ({ search_mode := some "hybrid" } : SearchOptions).use_boost_ranker hits :=
  C8_hybrid_flag_invariance _ _ rfl rfl

/-- C9: the provisioning routine skips creation whenever the NGRAM index is
already present by name or by index-type inspection; when creation is
reached, an already-exists style failure is turned into success and any
other failure is re-raised. -/
theorem C9_ngram_idempotent (existing : List IndexInfo) (cr : Except String Unit) :
    ((existing.map IndexInfo.name).contains NGRAM_INDEX_NAME = true →
      add_ngram_index existing cr = .ok .skippedByName) ∧
    (add_ngram_index existing cr = .ok .added →
      cr = .ok () ∧
      (existing.map IndexInfo.name).contains NGRAM_INDEX_NAME = false ∧
      ∀ i ∈ existing, isNgramByDescribe i = false) ∧
    (∀ e, cr = .error e →
      (existing.map IndexInfo.name).contains NGRAM_INDEX_NAME = false →
      (∀ i ∈ existing, isNgramByDescribe i = false) →
      add_ngram_index existing cr =
        if raceMessage e then .ok .skippedRace else .error e) := by
  refine ⟨fun hn => ?_, fun ha => ?_, fun e hcr hn hd => ?_⟩
  · unfold add_ngram_index
    rw [if_pos hn]
  · unfold add_ngram_index at ha
    by_cases hn : (existing.map IndexInfo.name).contains NGRAM_INDEX_NAME
    · rw [if_pos hn] at ha
      simp at ha
    · rw [if_neg hn] at ha
      cases hfind : existing.find? isNgramByDescribe with
      | some i =>
        rw [hfind] at ha
        simp at ha
      | none =>
        rw [hfind] at ha
        cases cr with
        | ok u =>
          cases u
          refine ⟨rfl, by simpa using hn, fun i hi => ?_⟩
          have := List.find?_eq_none.mp hfind i hi
          simpa using this
        | error e =>
          by_cases hrace : raceMessage e <;> simp [hrace] at ha
  · unfold add_ngram_index
    have hn2 : ¬ (existing.map IndexInfo.name).contains NGRAM_INDEX_NAME = true := by
      rw [hn]
      decide
    rw [if_neg hn2]
    have hfind : existing.find? isNgramByDescribe = none :=
      List.find?_eq_none.mpr fun i hi => by simp [hd i hi]
    rw [hfind, hcr]

/-- C9 witness: skip by name, race-error success and re-raise at concrete
inputs. -/
theorem C9_ngram_idempotent_witness :
    add_ngram_index [{ name := "title_ngram", describeResult := none }] (.ok ()) =
      .ok .skippedByName ∧
    add_ngram_index [] (.error "index already exists") = .ok .skippedRace ∧
    add_ngram_index [] (.error "boom") = .error "boom" := by
  refine ⟨(C9_ngram_idempotent _ _).1 (by decide), ?_, ?_⟩
  · rw [(C9_ngram_idempotent [] _).2.2 "index already exists" rfl (by decide)
      (fun i hi => absurd hi (List.not_mem_nil i)),
      if_pos (by decide : raceMessage "index already exists" = true)]
  · rw [(C9_ngram_idempotent [] _).2.2 "boom" rfl (by decide)
      (fun i hi => absurd hi (List.not_mem_nil i)),
      if_neg (by decide : ¬ raceMessage "boom" = true)]
